import Mathlib

/-!
Verification of the AirFQ flight-unit airspeed acquisition pipeline.

The definitions below are a shallow embedding of the Python sources in
`flight-unit/` (`main.py`, `logger.py`, `airspeed.py`).  Python floats are
modelled as exact rationals (`ℚ`); `math.sqrt` and the float power operator
`**` are modelled on `ℝ` with `Real.sqrt` and `Real.rpow`.  Sensor frames are
byte lists; fallible reads are an explicit `ReadResult` input; `None` values
become `Option`.
-/

namespace AirFQ

/-- A raw sensor frame: the bytes returned by one `i2c.readfrom` call. -/
abbrev Frame := List ℕ

/-- Model of `parse_pitot_data` from `flight-unit/main.py` (lines 57-62) and
`flight-unit/logger.py` (lines 64-69): a frame that is not exactly 4 bytes
yields `(None, None)`; otherwise the two big-endian 16-bit words. -/
def parse_pitot_data : Frame → Option (ℕ × ℕ)
  | [b0, b1, b2, b3] => some ((b0 <<< 8) ||| b1, (b2 <<< 8) ||| b3)
  | _ => none

/-- Model of `raw_to_pressure_pa` from `flight-unit/main.py` (lines 64-73) and
`flight-unit/logger.py` (lines 71-80): clamp the raw count to
`[1638, 14745]`, scale linearly to psi over that span, convert to Pa. -/
def raw_to_pressure_pa (pressure_raw : ℤ) : ℚ :=
  let r1 : ℤ := if pressure_raw < 1638 then 1638 else pressure_raw
  let r2 : ℤ := if r1 > 14745 then 14745 else r1
  let psi : ℚ := ((r2 - 1638 : ℤ) : ℚ) * (1 / (14745 - 1638))
  psi * 6894.76

/-- Model of `parse_pressure_diff` from `flight-unit/airspeed.py` (lines 10-23): a
frame that is not exactly 4 bytes yields `0` (not `None`); otherwise the
clamped and scaled pressure in Pa. -/
def parse_pressure_diff : Frame → ℚ
  | [b0, b1, _t0, _t1] =>
    let pressure_raw : ℤ := ((b0 <<< 8) ||| b1 : ℕ)
    let r1 : ℤ := if pressure_raw < 1638 then 1638 else pressure_raw
    let r2 : ℤ := if r1 > 14745 then 14745 else r1
    let psi : ℚ := ((r2 - 1638 : ℤ) : ℚ) * (1 / (14745 - 1638))
    psi * 6894.76
  | _ => 0

lemma parse_pressure_diff_eq_raw (b0 b1 t0 t1 : ℕ) :
    parse_pressure_diff [b0, b1, t0, t1] =
      raw_to_pressure_pa (((b0 <<< 8) ||| b1 : ℕ) : ℤ) := rfl

/-- The clamped raw count as a `min`/`max`; lets order lemmas apply. -/
lemma raw_to_pressure_pa_clamp (r : ℤ) :
    raw_to_pressure_pa r =
      ((min (max r 1638) 14745 - 1638 : ℤ) : ℚ) * (1 / 13107) * 6894.76 := by
  rcases lt_or_le r 1638 with h1 | h1
  · have hm : min (max r 1638) 14745 = 1638 := by omega
    rw [hm]
    simp only [raw_to_pressure_pa, if_pos h1]
    norm_num
  · rcases le_or_lt r 14745 with h2 | h2
    · have hm : min (max r 1638) 14745 = r := by omega
      rw [hm]
      have hn1 : ¬(r < 1638) := not_lt.mpr h1
      have hn2 : ¬(r > 14745) := not_lt.mpr h2
      simp only [raw_to_pressure_pa, if_neg hn1, if_neg hn2]
      norm_num
    · have hm : min (max r 1638) 14745 = 14745 := by omega
      rw [hm]
      have hn1 : ¬(r < 1638) := not_lt.mpr (by omega)
      simp only [raw_to_pressure_pa, if_neg hn1, if_pos h2]
      norm_num

lemma raw_to_pressure_pa_mono {r s : ℤ} (h : r ≤ s) :
    raw_to_pressure_pa r ≤ raw_to_pressure_pa s := by
  rw [raw_to_pressure_pa_clamp, raw_to_pressure_pa_clamp]
  have hm : (min (max r 1638) 14745 - 1638 : ℤ) ≤ min (max s 1638) 14745 - 1638 := by
    omega
  have hc : ((min (max r 1638) 14745 - 1638 : ℤ) : ℚ) ≤
      ((min (max s 1638) 14745 - 1638 : ℤ) : ℚ) := by exact_mod_cast hm
  have hpos : (0 : ℚ) < 1 / 13107 * 6894.76 := by norm_num
  calc ((min (max r 1638) 14745 - 1638 : ℤ) : ℚ) * (1 / 13107) * 6894.76
      = ((min (max r 1638) 14745 - 1638 : ℤ) : ℚ) * (1 / 13107 * 6894.76) := by ring
    _ ≤ ((min (max s 1638) 14745 - 1638 : ℤ) : ℚ) * (1 / 13107 * 6894.76) :=
        mul_le_mul_of_nonneg_right hc (le_of_lt hpos)
    _ = ((min (max s 1638) 14745 - 1638 : ℤ) : ℚ) * (1 / 13107) * 6894.76 := by ring

lemma raw_to_pressure_pa_nonneg (r : ℤ) : 0 ≤ raw_to_pressure_pa r := by
  rw [raw_to_pressure_pa_clamp]
  have h : (0 : ℤ) ≤ min (max r 1638) 14745 - 1638 := by omega
  have hc : (0 : ℚ) ≤ ((min (max r 1638) 14745 - 1638 : ℤ) : ℚ) := by exact_mod_cast h
  positivity

lemma raw_to_pressure_pa_le (r : ℤ) : raw_to_pressure_pa r ≤ 6894.76 := by
  rw [raw_to_pressure_pa_clamp]
  have h : (min (max r 1638) 14745 - 1638 : ℤ) ≤ 13107 := by omega
  have hc : ((min (max r 1638) 14745 - 1638 : ℤ) : ℚ) ≤ 13107 := by exact_mod_cast h
  have h0 : (0 : ℚ) ≤ ((min (max r 1638) 14745 - 1638 : ℤ) : ℚ) := by
    have : (0 : ℤ) ≤ min (max r 1638) 14745 - 1638 := by omega
    exact_mod_cast this
  nlinarith

/-- C3: `raw_to_pressure_pa` (the spec's `raw_to_pascals`) is monotonically
non-decreasing; it maps `1638` to `0` and `14745` to `6894.76` exactly; and
any input below `1638` or above `14745` is clamped to the value at the
corresponding bound rather than rejected. -/
theorem raw_to_pascals_spec :
    (∀ r s : ℤ, r ≤ s → raw_to_pressure_pa r ≤ raw_to_pressure_pa s) ∧
    raw_to_pressure_pa 1638 = 0 ∧
    raw_to_pressure_pa 14745 = 6894.76 ∧
    (∀ r : ℤ, r < 1638 → raw_to_pressure_pa r = raw_to_pressure_pa 1638) ∧
    (∀ r : ℤ, r > 14745 → raw_to_pressure_pa r = raw_to_pressure_pa 14745) := by
  refine ⟨fun r s h => raw_to_pressure_pa_mono h, by norm_num [raw_to_pressure_pa],
    by norm_num [raw_to_pressure_pa], fun r hr => ?_, fun r hr => ?_⟩
  · rw [raw_to_pressure_pa_clamp, raw_to_pressure_pa_clamp]
    have hm : min (max r 1638) 14745 = min (max (1638 : ℤ) 1638) 14745 := by omega
    rw [hm]
  · rw [raw_to_pressure_pa_clamp, raw_to_pressure_pa_clamp]
    have hm : min (max r 1638) 14745 = min (max (14745 : ℤ) 1638) 14745 := by omega
    rw [hm]

/-- Witness for C3 at concrete inputs. -/
theorem raw_to_pascals_spec_witness :
    raw_to_pressure_pa 2000 ≤ raw_to_pressure_pa 3000 ∧
    raw_to_pressure_pa 0 = raw_to_pressure_pa 1638 ∧
    raw_to_pressure_pa 20000 = raw_to_pressure_pa 14745 :=
  ⟨raw_to_pascals_spec.1 2000 3000 (by norm_num),
   raw_to_pascals_spec.2.2.2.1 0 (by norm_num),
   raw_to_pascals_spec.2.2.2.2 20000 (by norm_num)⟩

/-! ### The main.py variant: static pressure, airspeed, one acquisition tick -/

/-- Outcome of one `i2c.readfrom(PITOT_ADDR, 4)` call: either the bus raised
an exception or it returned a frame. -/
inductive ReadResult where
  | err : ReadResult
  | ok : Frame → ReadResult

/-- Model of `SEA_LEVEL_PRESSURE_PA` from `flight-unit/main.py` line 41. -/
def SEA_LEVEL_PRESSURE_PA : ℝ := 101325

/-- Model of `SEA_LEVEL_TEMP_K` from `flight-unit/main.py` line 42. -/
def SEA_LEVEL_TEMP_K : ℝ := 288.15

/-- Model of `ELEVATION_FT` from `flight-unit/main.py` line 43. -/
def ELEVATION_FT : ℝ := 440

/-- Model of `ELEVATION_M` from `flight-unit/main.py` line 44. -/
def ELEVATION_M : ℝ := ELEVATION_FT * 0.3048

/-- Model of `pressure_at_elevation` from `flight-unit/main.py` lines 46-53: the
barometric formula with standard-atmosphere constants. -/
noncomputable def pressure_at_elevation (elevation_m : ℝ) : ℝ :=
  let L : ℝ := 0.0065
  let R : ℝ := 8.31447
  let M : ℝ := 0.0289644
  let g : ℝ := 9.80665
  let T0 : ℝ := SEA_LEVEL_TEMP_K
  let P0 : ℝ := SEA_LEVEL_PRESSURE_PA
  P0 * (1 - L * elevation_m / T0) ^ (g * M / (R * L))

/-- Model of `STATIC_PRESSURE_PA` from `flight-unit/main.py` line 55. -/
noncomputable def STATIC_PRESSURE_PA : ℝ := pressure_at_elevation ELEVATION_M

/-- Model of `airspeed_from_pressures` from `flight-unit/main.py` lines 77-86:
clamp a negative differential pressure to 0, then `sqrt (2 dp / rho)`. -/
noncomputable def airspeed_from_pressures (pitot_pa static_pa : ℝ) : ℝ :=
  let dp := pitot_pa - static_pa
  let dp2 := if dp < 0 then 0 else dp
  Real.sqrt (2 * dp2 / 1.225)

lemma airspeed_from_pressures_of_neg {p s : ℝ} (h : p - s < 0) :
    airspeed_from_pressures p s = 0 := by
  unfold airspeed_from_pressures
  simp only [if_pos h]
  have h0 : (2 : ℝ) * 0 / 1.225 = 0 := by norm_num
  rw [h0, Real.sqrt_zero]

/-- The barometric static pressure at 440 ft exceeds the sensor's full-scale
span of one psi (6894.76 Pa); in fact it is close to 99700 Pa. -/
lemma static_pressure_gt_span : (6894.76 : ℝ) < STATIC_PRESSURE_PA := by
  have hshow : STATIC_PRESSURE_PA =
      101325 * (1 - 0.0065 * (440 * 0.3048) / 288.15) ^
        (9.80665 * 0.0289644 / (8.31447 * 0.0065) : ℝ) := rfl
  rw [hshow]
  set b : ℝ := 1 - 0.0065 * (440 * 0.3048) / 288.15 with hb
  set e : ℝ := 9.80665 * 0.0289644 / (8.31447 * 0.0065) with he
  have hb0 : (0 : ℝ) < b := by rw [hb]; norm_num
  have hb1 : b ≤ 1 := by rw [hb]; norm_num
  have he6 : e ≤ 6 := by rw [he]; norm_num
  have hmono : b ^ (6 : ℝ) ≤ b ^ e := Real.rpow_le_rpow_of_exponent_ge hb0 hb1 he6
  have hnat : b ^ (6 : ℝ) = b ^ (6 : ℕ) := by
    rw [show ((6 : ℝ)) = ((6 : ℕ) : ℝ) by norm_num, Real.rpow_natCast]
  have hb9 : (0.9 : ℝ) ≤ b := by rw [hb]; norm_num
  have hpow : (0.9 : ℝ) ^ 6 ≤ b ^ 6 := by
    exact pow_le_pow_left₀ (by norm_num) hb9 6
  have hlow : (6894.76 : ℝ) < 101325 * b ^ (6 : ℕ) := by nlinarith
  have hch : (101325 : ℝ) * b ^ (6 : ℝ) ≤ 101325 * b ^ e :=
    mul_le_mul_of_nonneg_left hmono (by norm_num)
  rw [hnat] at hch
  exact lt_of_lt_of_le hlow hch

/-- Input to one iteration of the `main.py` acquisition loop: the pitot bus
read outcome, the onboard temperature sample, and whether the SD append
would succeed this tick. -/
structure TickInput where
  pitot : ReadResult
  temp_c : ℚ
  persist_ok : Bool

/-- The per-tick derived fields of the `main.py` loop (lines 124-137). -/
structure Reading where
  pitot_pa : Option ℚ
  airspeed : Option ℝ
  temp_c : ℚ

/-- One iteration of the `main.py` acquisition loop, lines 124-137: a bus
exception or a wrong-length frame leaves the pressure-derived fields `None`;
otherwise pressure and airspeed are computed; the temperature read is
unaffected either way. -/
noncomputable def mainReading (t : TickInput) : Reading :=
  match t.pitot with
  | .err => { pitot_pa := none, airspeed := none, temp_c := t.temp_c }
  | .ok frame =>
    match parse_pitot_data frame with
    | none => { pitot_pa := none, airspeed := none, temp_c := t.temp_c }
    | some (praw, _traw) =>
      let pa := raw_to_pressure_pa (praw : ℤ)
      { pitot_pa := some pa,
        airspeed := some (airspeed_from_pressures ((pa : ℚ) : ℝ) STATIC_PRESSURE_PA),
        temp_c := t.temp_c }

/-- The acquisition loop emits one reading per tick, in order. -/
noncomputable def mainReadings (ts : List TickInput) : List Reading :=
  ts.map mainReading

/-- The CSV append of `main.py` lines 195-204 / `logger.py` lines 227-236: a
successful write appends the row, a failed write is logged and dropped. -/
def persistStep (file : List String) (row : String) (ok : Bool) : List String :=
  if ok then file ++ [row] else file

/-- The file contents after the loop has processed a list of
(row, write-succeeded) ticks. -/
def persistRun (file : List String) : List (String × Bool) → List String
  | [] => file
  | (row, ok) :: rest => persistRun (persistStep file row ok) rest

lemma parse_pitot_data_of_length_ne {data : Frame} (h : data.length ≠ 4) :
    parse_pitot_data data = none := by
  match data with
  | [] => rfl
  | [_] => rfl
  | [_, _] => rfl
  | [_, _, _] => rfl
  | [_, _, _, _] => simp at h
  | _ :: _ :: _ :: _ :: _ :: _ => rfl

lemma parse_pressure_diff_of_length_ne {data : Frame} (h : data.length ≠ 4) :
    parse_pressure_diff data = 0 := by
  match data with
  | [] => rfl
  | [_] => rfl
  | [_, _] => rfl
  | [_, _, _] => rfl
  | [_, _, _, _] => simp at h
  | _ :: _ :: _ :: _ :: _ :: _ => rfl

/-- C5: a frame that is not exactly 4 bytes makes the decoder fail (`None`
in main.py/logger.py, `0` in airspeed.py) instead of raising; in particular
on a 3-byte frame the tick's pressure-derived fields are null and the loop
proceeds to the following ticks unchanged. -/
theorem frame_length_guard :
    (∀ data : Frame, data.length ≠ 4 → parse_pitot_data data = none) ∧
    (∀ data : Frame, data.length ≠ 4 → parse_pressure_diff data = 0) ∧
    (∀ t : TickInput, ∀ b0 b1 b2 : ℕ, t.pitot = .ok [b0, b1, b2] →
      (mainReading t).pitot_pa = none ∧ (mainReading t).airspeed = none) ∧
    (∀ ts1 ts2 : List TickInput, ∀ t : TickInput,
      mainReadings (ts1 ++ t :: ts2) =
        mainReadings ts1 ++ mainReading t :: mainReadings ts2) := by
  refine ⟨fun _ h => parse_pitot_data_of_length_ne h,
    fun _ h => parse_pressure_diff_of_length_ne h,
    fun t b0 b1 b2 ht => ?_, fun ts1 ts2 t => by simp [mainReadings]⟩
  constructor <;> simp [mainReading, ht, parse_pitot_data]

/-- Witness for C5 at a concrete 3-byte frame. -/
theorem frame_length_guard_witness :
    parse_pitot_data [1, 2, 3] = none ∧
    parse_pressure_diff [1, 2, 3] = 0 ∧
    (mainReading ⟨.ok [1, 2, 3], 25, true⟩).pitot_pa = none :=
  ⟨frame_length_guard.1 [1, 2, 3] (by norm_num),
   frame_length_guard.2.1 [1, 2, 3] (by norm_num),
   (frame_length_guard.2.2.1 ⟨.ok [1, 2, 3], 25, true⟩ 1 2 3 rfl).1⟩

/-- C6: a fault in one tick degrades only that tick's affected fields and is
never fatal: the loop emits exactly one reading per tick, a bus exception
nulls only the pressure-derived fields of its own tick, readings do not
depend on persist outcomes, and a failed persist drops only its own row
while the run continues. -/
theorem tick_fault_isolation :
    (∀ ts : List TickInput, (mainReadings ts).length = ts.length) ∧
    (∀ t : TickInput, t.pitot = .err →
      (mainReading t).pitot_pa = none ∧ (mainReading t).airspeed = none ∧
      (mainReading t).temp_c = t.temp_c) ∧
    (∀ ts1 ts2 : List TickInput, ∀ t : TickInput,
      mainReadings (ts1 ++ t :: ts2) =
        mainReadings ts1 ++ mainReading t :: mainReadings ts2) ∧
    (∀ p tc b b', mainReading ⟨p, tc, b⟩ = mainReading ⟨p, tc, b'⟩) ∧
    (∀ file row rest, persistRun file ((row, false) :: rest) = persistRun file rest) ∧
    (∀ file row rest,
      persistRun file ((row, true) :: rest) = persistRun (file ++ [row]) rest) := by
  refine ⟨fun ts => by simp [mainReadings], fun t ht => ?_,
    fun ts1 ts2 t => by simp [mainReadings], fun p tc b b' => by simp [mainReading],
    fun file row rest => by simp [persistRun, persistStep],
    fun file row rest => by simp [persistRun, persistStep]⟩
  refine ⟨?_, ?_, ?_⟩ <;> simp [mainReading, ht]

/-- Witness for C6 at a concrete erring tick. -/
theorem tick_fault_isolation_witness :
    (mainReading ⟨.err, 25, true⟩).pitot_pa = none ∧
    persistRun ["h"] [("r", false)] = persistRun ["h"] [] :=
  ⟨(tick_fault_isolation.2.1 ⟨.err, 25, true⟩ rfl).1,
   tick_fault_isolation.2.2.2.2.1 ["h"] "r" []⟩

/-- C2: in the `main.py` variant every 4-byte frame yields airspeed 0: the
converted pitot pressure is at most 6894.76 Pa, the static reference exceeds
it, so the differential pressure is negative and is clamped to 0 before the
square root. -/
theorem main_variant_airspeed_always_zero :
    ∀ (t : TickInput) (frame : Frame), t.pitot = .ok frame → frame.length = 4 →
      (mainReading t).airspeed = some 0 := by
  intro t frame ht hlen
  match frame, hlen with
  | [b0, b1, b2, b3], _ =>
    have hle : raw_to_pressure_pa (((b0 <<< 8) ||| b1 : ℕ) : ℤ) ≤ 6894.76 :=
      raw_to_pressure_pa_le _
    have hlt : ((raw_to_pressure_pa (((b0 <<< 8) ||| b1 : ℕ) : ℤ) : ℚ) : ℝ) -
        STATIC_PRESSURE_PA < 0 := by
      have hcast : ((raw_to_pressure_pa (((b0 <<< 8) ||| b1 : ℕ) : ℤ) : ℚ) : ℝ) ≤
          ((6894.76 : ℚ) : ℝ) := by exact_mod_cast hle
      have h2 : ((6894.76 : ℚ) : ℝ) = (6894.76 : ℝ) := by norm_num
      have := static_pressure_gt_span
      linarith [hcast, h2 ▸ hcast]
    simp only [mainReading, ht, parse_pitot_data]
    rw [airspeed_from_pressures_of_neg hlt]

/-- Witness for C2 at the concrete frame `[0x20, 0, 0, 0]`. -/
theorem main_variant_airspeed_always_zero_witness :
    (mainReading ⟨.ok [32, 0, 0, 0], 25, true⟩).airspeed = some 0 :=
  main_variant_airspeed_always_zero ⟨.ok [32, 0, 0, 0], 25, true⟩ [32, 0, 0, 0] rfl rfl

/-! ### Hemisphere sign correction (main.py lines 143-160, logger.py 174-191) -/

/-- The latitude sign fix of `main.py` lines 149-152: force the sign to
agree with the hemisphere letter. -/
def fix_lat (lat_val : ℚ) (lat_dir : Char) : ℚ :=
  let v1 := if lat_dir = 'S' ∧ lat_val > 0 then -lat_val else lat_val
  if lat_dir = 'N' ∧ v1 < 0 then -v1 else v1

/-- The longitude sign fix of `main.py` lines 153-156. -/
def fix_lon (lon_val : ℚ) (lon_dir : Char) : ℚ :=
  let v1 := if lon_dir = 'W' ∧ lon_val > 0 then -lon_val else lon_val
  if lon_dir = 'E' ∧ v1 < 0 then -v1 else v1

/-- C7: the emitted signed latitude/longitude always has the sign of its
hemisphere letter (`S`/`W` nonpositive, `N`/`E` nonnegative, strict for a
nonzero value), the magnitude is preserved, and mismatches are corrected in
both directions: `(34.5, S) ↦ -34.5` and `(-34.5, N) ↦ 34.5`. -/
theorem hemisphere_sign_correction :
    (∀ v : ℚ, v ≠ 0 → fix_lat v 'S' < 0 ∧ 0 < fix_lat v 'N' ∧
      fix_lon v 'W' < 0 ∧ 0 < fix_lon v 'E') ∧
    (∀ v : ℚ, |fix_lat v 'S'| = |v| ∧ |fix_lat v 'N'| = |v| ∧
      |fix_lon v 'W'| = |v| ∧ |fix_lon v 'E'| = |v|) ∧
    fix_lat 34.5 'S' = -34.5 ∧ fix_lat (-34.5) 'N' = 34.5 := by
  have hlatS : ∀ v : ℚ, fix_lat v 'S' = if v > 0 then -v else v := by
    intro v
    by_cases hv : v > 0 <;> simp [fix_lat, hv]
  have hlatN : ∀ v : ℚ, fix_lat v 'N' = if v < 0 then -v else v := by
    intro v
    by_cases hv : v < 0 <;> simp [fix_lat, hv]
  have hlonW : ∀ v : ℚ, fix_lon v 'W' = if v > 0 then -v else v := by
    intro v
    by_cases hv : v > 0 <;> simp [fix_lon, hv]
  have hlonE : ∀ v : ℚ, fix_lon v 'E' = if v < 0 then -v else v := by
    intro v
    by_cases hv : v < 0 <;> simp [fix_lon, hv]
  refine ⟨fun v hv => ?_, fun v => ?_, ?_, ?_⟩
  · rw [hlatS, hlatN, hlonW, hlonE]
    have hS : (if v > 0 then -v else v) < 0 := by
      split_ifs with h
      · linarith
      · exact lt_of_le_of_ne (not_lt.mp h) hv
    have hN : 0 < (if v < 0 then -v else v) := by
      split_ifs with h
      · linarith
      · exact lt_of_le_of_ne (not_lt.mp h) (Ne.symm hv)
    exact ⟨hS, hN, hS, hN⟩
  · rw [hlatS, hlatN, hlonW, hlonE]
    refine ⟨?_, ?_, ?_, ?_⟩ <;> (split_ifs <;> simp [abs_neg])
  · rw [hlatS]; norm_num
  · rw [hlatN]; norm_num

/-- Witness for C7 at a concrete nonzero value. -/
theorem hemisphere_sign_correction_witness :
    fix_lat 34.5 'S' < 0 ∧ |fix_lat (-2) 'N'| = |(-2 : ℚ)| :=
  ⟨(hemisphere_sign_correction.1 34.5 (by norm_num)).1,
   (hemisphere_sign_correction.2.1 (-2)).2.1⟩

/-! ### Airspeed conversion (airspeed.py lines 25-30, logger.py lines 82-89) -/

/-- Model of `airspeed_from_pressure_diff` from `flight-unit/airspeed.py` lines 25-30
(identical to `airspeed_from_pressures` in `flight-unit/logger.py` lines
82-89): a missing or negative differential pressure yields 0, otherwise
`sqrt (2 dp / rho)`. -/
noncomputable def airspeed_from_pressure_diff
    (pressure_diff_pa : Option ℚ) (rho : ℚ) : ℝ :=
  match pressure_diff_pa with
  | none => 0
  | some dp => if dp < 0 then 0 else Real.sqrt (((2 * dp / rho : ℚ) : ℝ))

/-- C4: the airspeed conversion returns 0 for every negative, missing, or
zero differential pressure; it is never negative; and at
`dp = 6894.76, rho = 1.225` it returns `sqrt (2 * 6894.76 / 1.225)`, within
0.05 of 106.06 m/s. -/
theorem airspeed_conversion_policy :
    (∀ dp : ℚ, dp < 0 → airspeed_from_pressure_diff (some dp) 1.225 = 0) ∧
    airspeed_from_pressure_diff none 1.225 = 0 ∧
    airspeed_from_pressure_diff (some 0) 1.225 = 0 ∧
    (∀ (dp : Option ℚ) (rho : ℚ), 0 ≤ airspeed_from_pressure_diff dp rho) ∧
    airspeed_from_pressure_diff (some 6894.76) 1.225 =
      Real.sqrt (2 * 6894.76 / 1.225) ∧
    |airspeed_from_pressure_diff (some 6894.76) 1.225 - 106.06| < 0.05 := by
  have hval : airspeed_from_pressure_diff (some 6894.76) 1.225 =
      Real.sqrt (2 * 6894.76 / 1.225) := by
    simp only [airspeed_from_pressure_diff, if_neg (by norm_num : ¬(6894.76 : ℚ) < 0)]
    norm_num
  refine ⟨fun dp hdp => by simp [airspeed_from_pressure_diff, hdp], rfl, ?_, ?_, hval, ?_⟩
  · simp only [airspeed_from_pressure_diff, if_neg (by norm_num : ¬(0 : ℚ) < 0)]
    norm_num [Real.sqrt_zero]
  · intro dp rho
    match dp with
    | none => exact le_refl 0
    | some d =>
      simp only [airspeed_from_pressure_diff]
      split_ifs
      · exact le_refl 0
      · exact Real.sqrt_nonneg _
  · rw [hval]
    have hx : (2 * 6894.76 / 1.225 : ℝ) = 11256.7510204081632653061224489795918367346938775510204081632653 +
        (2 * 6894.76 / 1.225 - 11256.7510204081632653061224489795918367346938775510204081632653) := by ring
    have h1 : Real.sqrt (2 * 6894.76 / 1.225) < 106.11 := by
      rw [Real.sqrt_lt' (by norm_num)]
      norm_num
    have h2 : (106.05 : ℝ) < Real.sqrt (2 * 6894.76 / 1.225) := by
      rw [Real.lt_sqrt (by norm_num)]
      norm_num
    rw [abs_lt]
    constructor <;> linarith

/-- Witness for C4 at a concrete negative differential pressure. -/
theorem airspeed_conversion_policy_witness :
    airspeed_from_pressure_diff (some (-3)) 1.225 = 0 ∧
    0 ≤ airspeed_from_pressure_diff (some 5) 1.225 :=
  ⟨airspeed_conversion_policy.1 (-3) (by norm_num),
   airspeed_conversion_policy.2.2.2.1 (some 5) 1.225⟩

/-! ### End-to-end scenario for the frame `[0x20, 0x00, 0x00, 0x00]` -/

/-- C10 counterexample: the claimed pressure `≈ 3368.9 Pa` and airspeed
`≈ 74.2 m/s` are wrong for the frame `[0x20, 0, 0, 0]`: the decoded pressure
exceeds `3368.9 + 70` Pa and the airspeed exceeds `74.2 + 0.8` m/s. -/
theorem end_to_end_frame_counterexample :
    3368.9 + 70 < parse_pressure_diff [32, 0, 0, 0] ∧
    74.2 + 0.8 < airspeed_from_pressure_diff
      (some (parse_pressure_diff [32, 0, 0, 0])) 1.225 := by
  have hraw : ((32 <<< 8) ||| 0 : ℕ) = 8192 := by decide
  have hq : parse_pressure_diff [32, 0, 0, 0] = (8192 - 1638) * (1 / 13107) * 6894.76 := by
    rw [parse_pressure_diff_eq_raw, hraw]
    norm_num [raw_to_pressure_pa]
  have hgt : (3368.9 + 70 : ℚ) < parse_pressure_diff [32, 0, 0, 0] := by
    rw [hq]; norm_num
  refine ⟨hgt, ?_⟩
  have hpos : ¬parse_pressure_diff [32, 0, 0, 0] < 0 := by rw [hq]; norm_num
  simp only [airspeed_from_pressure_diff, if_neg hpos]
  have h75 : (74.2 + 0.8 : ℝ) = 75 := by norm_num
  rw [h75, Real.lt_sqrt (by norm_num)]
  rw [hq]
  norm_num

/-- C10 amended: decoding `[0x20, 0, 0, 0]` yields raw pressure 8192, a
pressure within 0.01 of 3447.64 Pa, and (zero offset 0) an airspeed of
`sqrt (2 pa / 1.225)`, within 0.01 of 75.03 m/s. -/
theorem end_to_end_frame_spec :
    parse_pitot_data [32, 0, 0, 0] = some (8192, 0) ∧
    |parse_pressure_diff [32, 0, 0, 0] - 3447.64| < 0.01 ∧
    airspeed_from_pressure_diff (some (parse_pressure_diff [32, 0, 0, 0])) 1.225 =
      Real.sqrt (((2 * parse_pressure_diff [32, 0, 0, 0] / 1.225 : ℚ) : ℝ)) ∧
    |airspeed_from_pressure_diff (some (parse_pressure_diff [32, 0, 0, 0])) 1.225
      - 75.03| < 0.01 := by
  have hraw : ((32 <<< 8) ||| 0 : ℕ) = 8192 := by decide
  have hq : parse_pressure_diff [32, 0, 0, 0] = (8192 - 1638) * (1 / 13107) * 6894.76 := by
    rw [parse_pressure_diff_eq_raw, hraw]
    norm_num [raw_to_pressure_pa]
  have hpos : ¬parse_pressure_diff [32, 0, 0, 0] < 0 := by rw [hq]; norm_num
  have hval : airspeed_from_pressure_diff (some (parse_pressure_diff [32, 0, 0, 0])) 1.225 =
      Real.sqrt (((2 * parse_pressure_diff [32, 0, 0, 0] / 1.225 : ℚ) : ℝ)) := by
    simp only [airspeed_from_pressure_diff, if_neg hpos]
  refine ⟨by decide, by rw [hq, abs_lt]; constructor <;> norm_num, hval, ?_⟩
  rw [hval]
  have h1 : Real.sqrt (((2 * parse_pressure_diff [32, 0, 0, 0] / 1.225 : ℚ) : ℝ)) < 75.03 := by
    rw [Real.sqrt_lt' (by norm_num), hq]
    push_cast
    norm_num
  have h2 : (75.02 : ℝ) < Real.sqrt (((2 * parse_pressure_diff [32, 0, 0, 0] / 1.225 : ℚ) : ℝ)) := by
    rw [Real.lt_sqrt (by norm_num), hq]
    push_cast
    norm_num
  rw [abs_lt]
  constructor <;> linarith

/-! ### Zero-offset calibration (logger.py lines 121-137, airspeed.py 32-55) -/

/-- The calibration globals of both variants: the accumulated readings, the
zero offset, and the `calibrated` flag. -/
structure CalibState where
  calibration_readings : List ℚ
  zero_offset : ℚ
  calibrated : Bool
deriving DecidableEq

/-- Initial calibration state (`logger.py` lines 47-51; `airspeed.py` 32-36). -/
def calibInit : CalibState := ⟨[], 0, false⟩

/-- Model of `calibration_count` from both variants. -/
def calibration_count : ℕ := 5

/-- The mean `sum(calibration_readings) / len(calibration_readings)`. -/
def calibOffset (l : List ℚ) : ℚ := l.sum / l.length

/-- One iteration of the `logger.py` calibration loop (lines 123-137): an
exception skips the tick; a wrong-length frame parses to `None` and is
skipped; a valid frame's pressure is appended, and the fifth appended sample
computes the offset and sets `calibrated`. -/
def loggerCalibTick (s : CalibState) (r : ReadResult) : CalibState :=
  if s.calibrated then s else
  match r with
  | .err => s
  | .ok frame =>
    match parse_pitot_data frame with
    | none => s
    | some (pressure_raw, _) =>
      let pressure_pa := raw_to_pressure_pa (pressure_raw : ℤ)
      let readings := s.calibration_readings ++ [pressure_pa]
      if calibration_count ≤ readings.length then
        ⟨readings, calibOffset readings, true⟩
      else
        ⟨readings, s.zero_offset, false⟩

/-- The `logger.py` calibration loop over a finite tick trace. -/
def loggerCalibRun (s : CalibState) (rs : List ReadResult) : CalibState :=
  rs.foldl loggerCalibTick s

/-- One iteration of the `airspeed.py` calibration loop (lines 40-55): an
exception skips the append, but a successful read always appends
`parse_pressure_diff data` — which is `0`, not `None`, for a wrong-length
frame, so the `if pa is not None` guard never skips; the count check sits
after the `try` block. -/
def airCalibTick (s : CalibState) (r : ReadResult) : CalibState :=
  if s.calibrated then s else
  let s1 : CalibState :=
    match r with
    | .err => s
    | .ok data =>
      ⟨s.calibration_readings ++ [parse_pressure_diff data], s.zero_offset, s.calibrated⟩
  if calibration_count ≤ s1.calibration_readings.length then
    ⟨s1.calibration_readings, calibOffset s1.calibration_readings, true⟩
  else s1

/-- The `airspeed.py` calibration loop over a finite tick trace. -/
def airCalibRun (s : CalibState) (rs : List ReadResult) : CalibState :=
  rs.foldl airCalibTick s

/-- The pressures of the successful reads of a trace, in order: exceptions
and wrong-length frames contribute nothing. -/
def validSamples : List ReadResult → List ℚ
  | [] => []
  | .err :: rs => validSamples rs
  | .ok f :: rs =>
    match parse_pitot_data f with
    | none => validSamples rs
    | some (praw, _) => raw_to_pressure_pa (praw : ℤ) :: validSamples rs

/-- The state the logger calibration loop reaches from `s`, described by the
valid samples it will consume. -/
def calibAfter (s : CalibState) (ps : List ℚ) : CalibState :=
  let readings := s.calibration_readings ++ ps.take (5 - s.calibration_readings.length)
  if 5 ≤ readings.length then ⟨readings, calibOffset readings, true⟩
  else ⟨readings, s.zero_offset, false⟩

lemma loggerCalibTick_calibrated {s : CalibState} (h : s.calibrated = true)
    (r : ReadResult) : loggerCalibTick s r = s := by
  simp [loggerCalibTick, h]

lemma loggerCalibRun_calibrated {s : CalibState} (h : s.calibrated = true) :
    ∀ rs : List ReadResult, loggerCalibRun s rs = s := by
  intro rs
  induction rs with
  | nil => rfl
  | cons r rs ih =>
    show loggerCalibRun (loggerCalibTick s r) rs = s
    rw [loggerCalibTick_calibrated h, ih]

lemma loggerCalibRun_spec :
    ∀ (rs : List ReadResult) (s : CalibState), s.calibrated = false →
      s.calibration_readings.length < 5 →
      loggerCalibRun s rs = calibAfter s (validSamples rs) := by
  intro rs
  induction rs with
  | nil =>
    intro s hc hl
    obtain ⟨rd, off, cal⟩ := s
    simp only [loggerCalibRun, List.foldl_nil, calibAfter, validSamples, List.take_nil,
      List.append_nil]
    rw [if_neg (by simp at hl ⊢; omega)]
    simp only at hc
    rw [hc]
  | cons r rs ih =>
    intro s hc hl
    match r with
    | .err =>
      have ht : loggerCalibTick s .err = s := by simp [loggerCalibTick, hc]
      show loggerCalibRun (loggerCalibTick s .err) rs = _
      rw [ht, ih s hc hl]
      rfl
    | .ok f =>
      cases hp : parse_pitot_data f with
      | none =>
        have ht : loggerCalibTick s (.ok f) = s := by simp [loggerCalibTick, hc, hp]
        have hv : validSamples (.ok f :: rs) = validSamples rs := by
          simp [validSamples, hp]
        show loggerCalibRun (loggerCalibTick s (.ok f)) rs = _
        rw [ht, ih s hc hl, hv]
      | some pr =>
        obtain ⟨praw, traw⟩ := pr
        have hv : validSamples (.ok f :: rs) =
            raw_to_pressure_pa (praw : ℤ) :: validSamples rs := by
          simp [validSamples, hp]
        by_cases h5 : 5 ≤ (s.calibration_readings ++ [raw_to_pressure_pa (praw : ℤ)]).length
        · have hL : s.calibration_readings.length = 4 := by
            simp only [List.length_append, List.length_singleton] at h5
            omega
          have ht : loggerCalibTick s (.ok f) =
              ⟨s.calibration_readings ++ [raw_to_pressure_pa (praw : ℤ)],
               calibOffset (s.calibration_readings ++ [raw_to_pressure_pa (praw : ℤ)]),
               true⟩ := by
            simp [loggerCalibTick, hc, hp, calibration_count, h5]
            omega
          show loggerCalibRun (loggerCalibTick s (.ok f)) rs = _
          rw [ht, loggerCalibRun_calibrated rfl, hv]
          simp only [calibAfter, hL]
          rw [show (5 : ℕ) - 4 = 1 by norm_num, List.take_succ_cons, List.take_zero]
          rw [if_pos (by simp only [List.length_append, List.length_singleton]; omega)]
        · have hL : s.calibration_readings.length < 4 := by
            simp only [List.length_append, List.length_singleton] at h5
            omega
          have ht : loggerCalibTick s (.ok f) =
              ⟨s.calibration_readings ++ [raw_to_pressure_pa (praw : ℤ)],
               s.zero_offset, false⟩ := by
            simp [loggerCalibTick, hc, hp, calibration_count, h5]
            omega
          show loggerCalibRun (loggerCalibTick s (.ok f)) rs = _
          rw [ht, ih _ rfl (by simp only [List.length_append, List.length_singleton]; omega), hv]
          simp only [calibAfter, List.length_append, List.length_singleton]
          have htake : (raw_to_pressure_pa (praw : ℤ) :: validSamples rs).take
              (5 - s.calibration_readings.length) =
              raw_to_pressure_pa (praw : ℤ) ::
                (validSamples rs).take (5 - (s.calibration_readings.length + 1)) := by
            rw [show 5 - s.calibration_readings.length =
              (5 - (s.calibration_readings.length + 1)) + 1 by omega, List.take_succ_cons]
          rw [htake]
          simp only [List.append_assoc, List.cons_append, List.nil_append,
            List.length_append, List.length_take, List.length_cons, List.length_singleton]
          exact if_congr (by omega) rfl rfl

/-- C1 amended: in `logger.py`, calibration completes exactly when five valid
samples have arrived, the five recorded values are the first five successful
reads (exceptions and wrong-length frames are skipped and never abort), and
the offset is their mean; a tick with fewer than five valid samples so far
never completes calibration.  In `airspeed.py` an exception also skips the
tick, but a wrong-length frame is recorded as a `0` Pa sample.  The mean of
the spec's example samples `[10, 12, 11, 9, 13]` is `11`. -/
theorem calibration_spec :
    (∀ rs : List ReadResult, 5 ≤ (validSamples rs).length →
      (loggerCalibRun calibInit rs).calibrated = true ∧
      (loggerCalibRun calibInit rs).calibration_readings = (validSamples rs).take 5 ∧
      (loggerCalibRun calibInit rs).zero_offset = calibOffset ((validSamples rs).take 5)) ∧
    (∀ rs : List ReadResult, (validSamples rs).length < 5 →
      (loggerCalibRun calibInit rs).calibrated = false) ∧
    (∀ s : CalibState, loggerCalibTick s .err = s) ∧
    (∀ s : CalibState, s.calibration_readings.length < 5 → airCalibTick s .err = s) ∧
    (∀ s : CalibState, s.calibrated = false → s.calibration_readings.length < 4 →
      ∀ f : Frame, f.length ≠ 4 →
        airCalibTick s (.ok f) = ⟨s.calibration_readings ++ [0], s.zero_offset, false⟩) ∧
    calibOffset [10, 12, 11, 9, 13] = 11 := by
  refine ⟨fun rs h => ?_, fun rs h => ?_, fun s => ?_, fun s h => ?_,
    fun s hc hlen f hf => ?_, by norm_num [calibOffset]⟩
  · rw [loggerCalibRun_spec rs calibInit rfl (by simp [calibInit])]
    have hlen : ((validSamples rs).take 5).length = 5 := by
      simp only [List.length_take]
      omega
    simp only [calibAfter, calibInit, List.nil_append, List.length_nil, Nat.sub_zero]
    rw [if_pos (by omega)]
    exact ⟨rfl, rfl, rfl⟩
  · rw [loggerCalibRun_spec rs calibInit rfl (by simp [calibInit])]
    have hlen : ((validSamples rs).take 5).length < 5 := by
      simp only [List.length_take]
      omega
    simp only [calibAfter, calibInit, List.nil_append, List.length_nil, Nat.sub_zero]
    rw [if_neg (by omega)]
  · simp [loggerCalibTick]
  · by_cases hcal : s.calibrated
    · simp [airCalibTick, hcal]
    · simp only [airCalibTick, hcal, if_false, Bool.false_eq_true, calibration_count]
      rw [if_neg (by omega)]
  · have h0 : parse_pressure_diff f = 0 := parse_pressure_diff_of_length_ne hf
    simp only [airCalibTick, hc, if_false, Bool.false_eq_true, h0, calibration_count]
    rw [if_neg (by simp only [List.length_append, List.length_singleton]; omega)]

/-- Witness for C1 at a concrete trace: one exception followed by five valid
frames (raw count 1638, i.e. 0 Pa) completes calibration. -/
theorem calibration_spec_witness :
    (loggerCalibRun calibInit
      [ReadResult.err, .ok [6, 102, 0, 0], .ok [6, 102, 0, 0], .ok [6, 102, 0, 0],
       .ok [6, 102, 0, 0], .ok [6, 102, 0, 0]]).calibrated = true ∧
    airCalibTick ⟨[], 0, false⟩ .err = ⟨[], 0, false⟩ :=
  ⟨(calibration_spec.1 _ (by decide)).1,
   calibration_spec.2.2.2.1 ⟨[], 0, false⟩ (by decide)⟩

/-- C1 counterexample: in `airspeed.py`, a run whose ticks hold one 3-byte
frame followed by only four valid frames (raw count 14745, 6894.76 Pa each)
still completes calibration; the invalid frame was recorded as the sample
`0` and enters the offset, which therefore differs from the mean of the
successful samples. -/
theorem calibration_counterexample :
    (airCalibRun calibInit
      [.ok [1, 2, 3], .ok [57, 153, 0, 0], .ok [57, 153, 0, 0],
       .ok [57, 153, 0, 0], .ok [57, 153, 0, 0]]).calibrated = true ∧
    (airCalibRun calibInit
      [.ok [1, 2, 3], .ok [57, 153, 0, 0], .ok [57, 153, 0, 0],
       .ok [57, 153, 0, 0], .ok [57, 153, 0, 0]]).calibration_readings =
      [0, 6894.76, 6894.76, 6894.76, 6894.76] ∧
    (airCalibRun calibInit
      [.ok [1, 2, 3], .ok [57, 153, 0, 0], .ok [57, 153, 0, 0],
       .ok [57, 153, 0, 0], .ok [57, 153, 0, 0]]).zero_offset ≠ 6894.76 := by
  have e1 : parse_pressure_diff [1, 2, 3] = 0 := rfl
  have e2 : parse_pressure_diff [57, 153, 0, 0] = 6894.76 := by
    rw [parse_pressure_diff_eq_raw]
    rw [show ((57 <<< 8) ||| 153 : ℕ) = 14745 from by decide]
    norm_num [raw_to_pressure_pa]
  have hrun : airCalibRun calibInit
      [.ok [1, 2, 3], .ok [57, 153, 0, 0], .ok [57, 153, 0, 0],
       .ok [57, 153, 0, 0], .ok [57, 153, 0, 0]] =
      ⟨[0, 6894.76, 6894.76, 6894.76, 6894.76], 5515.808, true⟩ := by
    simp only [airCalibRun, List.foldl_cons, List.foldl_nil]
    norm_num [airCalibTick, calibration_count, calibInit, e1, e2, calibOffset,
      List.sum_cons, List.sum_nil]
  rw [hrun]
  refine ⟨rfl, rfl, by norm_num⟩

/-! ### The steady-state loop of logger.py with the frozen offset -/

/-- The pressure path of one `logger.py` main-loop tick (lines 146-165): on
success the converted pressure minus the zero offset, on exception or
wrong-length frame `None`. -/
def loggerPressureDiff (zero_offset : ℚ) (r : ReadResult) : Option ℚ :=
  match r with
  | .err => none
  | .ok frame =>
    match parse_pitot_data frame with
    | none => none
    | some (praw, _) => some (raw_to_pressure_pa (praw : ℤ) - zero_offset)

/-- The whole `logger.py` run: the calibration loop consumes its trace, then
the main loop maps the frozen offset over its trace. -/
def loggerProgram (calibTicks mainTicks : List ReadResult) :
    CalibState × List (Option ℚ) :=
  let s := loggerCalibRun calibInit calibTicks
  (s, mainTicks.map (loggerPressureDiff s.zero_offset))

/-- C8: the calibrated state is terminal — once `calibrated` is set, no
further tick changes any part of the state (in particular `zero_offset` is
never recomputed), extending the trace after calibration changes nothing,
and every steady-state reading subtracts that one frozen offset. -/
theorem calibrated_state_terminal :
    (∀ (s : CalibState) (r : ReadResult), s.calibrated = true → loggerCalibTick s r = s) ∧
    (∀ (s : CalibState) (rs : List ReadResult), s.calibrated = true →
      loggerCalibRun s rs = s) ∧
    (∀ rs1 rs2 : List ReadResult, (loggerCalibRun calibInit rs1).calibrated = true →
      loggerCalibRun calibInit (rs1 ++ rs2) = loggerCalibRun calibInit rs1) ∧
    (∀ calibTicks mainTicks : List ReadResult,
      (loggerProgram calibTicks mainTicks).2 =
        mainTicks.map (loggerPressureDiff (loggerProgram calibTicks mainTicks).1.zero_offset)) ∧
    (∀ (off : ℚ) (frame : Frame) (praw traw : ℕ),
      parse_pitot_data frame = some (praw, traw) →
      loggerPressureDiff off (.ok frame) = some (raw_to_pressure_pa (praw : ℤ) - off)) := by
  refine ⟨fun s r h => loggerCalibTick_calibrated h r,
    fun s rs h => loggerCalibRun_calibrated h rs, fun rs1 rs2 h => ?_,
    fun ct mt => rfl, fun off frame praw traw hp => by simp [loggerPressureDiff, hp]⟩
  show List.foldl loggerCalibTick calibInit (rs1 ++ rs2) = _
  rw [List.foldl_append]
  exact loggerCalibRun_calibrated h rs2

/-- Witness for C8 at a concrete calibrated state and trace. -/
theorem calibrated_state_terminal_witness :
    loggerCalibTick ⟨[1], 2, true⟩ .err = ⟨[1], 2, true⟩ ∧
    loggerCalibRun ⟨[1], 2, true⟩ [.ok [57, 153, 0, 0]] = ⟨[1], 2, true⟩ :=
  ⟨calibrated_state_terminal.1 ⟨[1], 2, true⟩ .err rfl,
   calibrated_state_terminal.2.1 ⟨[1], 2, true⟩ [.ok [57, 153, 0, 0]] rfl⟩

/-! ### CSV emission (main.py lines 103-115 and 159-204)

`"{:.nf}".format(x)` is modelled by `renderFixed n`: round the value to `n`
decimal places and print sign, integer digits, a dot, and exactly `n`
zero-padded fraction digits.  `decodeFixed` is the inverse reader used to
state the round-trip property; `roundTo n q` is the value the rendered text
denotes. -/

/-- The digit characters. -/
def charOfDigit : ℕ → Char
  | 0 => '0' | 1 => '1' | 2 => '2' | 3 => '3' | 4 => '4'
  | 5 => '5' | 6 => '6' | 7 => '7' | 8 => '8' | _ => '9'

/-- Read a digit character back. -/
def digitOfChar (c : Char) : ℕ :=
  if c = '1' then 1 else if c = '2' then 2 else if c = '3' then 3 else
  if c = '4' then 4 else if c = '5' then 5 else if c = '6' then 6 else
  if c = '7' then 7 else if c = '8' then 8 else if c = '9' then 9 else 0

/-- The decimal digit characters of a natural number, most significant
first; `0` renders as `"0"`. -/
def natChars (m : ℕ) : List Char :=
  if m = 0 then ['0'] else ((Nat.digits 10 m).reverse).map charOfDigit

/-- Left-pad with `'0'` to `n` characters. -/
def padZeros (n : ℕ) (l : List Char) : List Char :=
  List.replicate (n - l.length) '0' ++ l

/-- The natural number a big-endian digit-character list denotes. -/
def charsToNat (l : List Char) : ℕ :=
  Nat.ofDigits 10 ((l.map digitOfChar).reverse)

/-- Split a character list at the first `'.'`. -/
def splitAtDot : List Char → List Char × List Char
  | [] => ([], [])
  | c :: rest =>
    if c = '.' then ([], rest)
    else ((splitAtDot rest).1.cons c, (splitAtDot rest).2)

/-- The value rounded to `n` decimal places — what `"{:.nf}"` denotes. -/
def roundTo (n : ℕ) (q : ℚ) : ℚ := ((round (q * 10 ^ n) : ℤ) : ℚ) / 10 ^ n

/-- The characters of `"{:.nf}".format(q)`. -/
def renderFixed (n : ℕ) (q : ℚ) : List Char :=
  let m : ℤ := round (q * 10 ^ n)
  let a : ℕ := m.natAbs
  let body : List Char :=
    natChars (a / 10 ^ n) ++ '.' :: padZeros n (natChars (a % 10 ^ n))
  if m < 0 then '-' :: body else body

/-- The magnitude a rendered `"ip.fp"` character list denotes. -/
def decodeMag (cs : List Char) : ℚ :=
  (charsToNat (splitAtDot cs).1 : ℚ) +
    (charsToNat (splitAtDot cs).2 : ℚ) / 10 ^ (splitAtDot cs).2.length

/-- Read a rendered fixed-point character list back into a rational. -/
def decodeFixed : List Char → ℚ
  | [] => 0
  | c :: rest => if c = '-' then -decodeMag rest else decodeMag (c :: rest)

lemma digitOfChar_charOfDigit {d : ℕ} (hd : d < 10) :
    digitOfChar (charOfDigit d) = d := by
  interval_cases d <;> decide

lemma charOfDigit_ne_dot {d : ℕ} (hd : d < 10) : charOfDigit d ≠ '.' := by
  interval_cases d <;> decide

lemma charOfDigit_ne_dash {d : ℕ} (hd : d < 10) : charOfDigit d ≠ '-' := by
  interval_cases d <;> decide

lemma mem_natChars {m : ℕ} {c : Char} (hc : c ∈ natChars m) :
    c ≠ '.' ∧ c ≠ '-' := by
  unfold natChars at hc
  by_cases hm : m = 0
  · rw [if_pos hm] at hc
    simp only [List.mem_singleton] at hc
    subst hc
    exact ⟨by decide, by decide⟩
  · rw [if_neg hm] at hc
    obtain ⟨d, hd, rfl⟩ := List.mem_map.mp hc
    have hd10 : d < 10 :=
      Nat.digits_lt_base (by norm_num) (List.mem_reverse.mp hd)
    exact ⟨charOfDigit_ne_dot hd10, charOfDigit_ne_dash hd10⟩

lemma natChars_ne_nil (m : ℕ) : natChars m ≠ [] := by
  unfold natChars
  by_cases hm : m = 0
  · rw [if_pos hm]
    simp
  · rw [if_neg hm]
    simp [Nat.digits_ne_nil_iff_ne_zero, hm]

lemma charsToNat_natChars (m : ℕ) : charsToNat (natChars m) = m := by
  by_cases hm : m = 0
  · subst hm
    decide
  · unfold charsToNat natChars
    rw [if_neg hm, List.map_map]
    have hcongr : (Nat.digits 10 m).reverse.map (digitOfChar ∘ charOfDigit) =
        (Nat.digits 10 m).reverse.map id := by
      refine List.map_congr_left fun d hd => ?_
      have hd10 : d < 10 :=
        Nat.digits_lt_base (by norm_num) (List.mem_reverse.mp hd)
      exact digitOfChar_charOfDigit hd10
    rw [hcongr, List.map_id, List.reverse_reverse, Nat.ofDigits_digits]

lemma ofDigits_replicate_zero (b k : ℕ) :
    Nat.ofDigits b (List.replicate k 0) = 0 := by
  induction k with
  | zero => rfl
  | succ k ih => simp [List.replicate_succ, Nat.ofDigits_cons, ih]

lemma charsToNat_padZeros (n : ℕ) (l : List Char) :
    charsToNat (padZeros n l) = charsToNat l := by
  unfold charsToNat padZeros
  rw [List.map_append, List.map_replicate]
  rw [show digitOfChar '0' = 0 from rfl, List.reverse_append, List.reverse_replicate]
  rw [Nat.ofDigits_append, ofDigits_replicate_zero]
  simp

lemma mem_padZeros {n : ℕ} {l : List Char} {c : Char}
    (hc : c ∈ padZeros n l) : c = '0' ∨ c ∈ l := by
  unfold padZeros at hc
  rcases List.mem_append.mp hc with h | h
  · exact Or.inl (List.eq_of_mem_replicate h)
  · exact Or.inr h

lemma padZeros_length_of_le {n : ℕ} {l : List Char} (h : l.length ≤ n) :
    (padZeros n l).length = n := by
  simp only [padZeros, List.length_append, List.length_replicate]
  omega

lemma natChars_length_le {fp n : ℕ} (hfp : fp < 10 ^ n) (hn : 1 ≤ n) :
    (natChars fp).length ≤ n := by
  by_cases h0 : fp = 0
  · subst h0
    simpa [natChars] using hn
  · unfold natChars
    rw [if_neg h0]
    rw [List.length_map, List.length_reverse]
    rw [Nat.digits_len 10 fp (by norm_num) h0]
    have := Nat.log_lt_of_lt_pow h0 hfp
    omega

lemma splitAtDot_spec {l1 : List Char} (h : ∀ c ∈ l1, c ≠ '.') (l2 : List Char) :
    splitAtDot (l1 ++ '.' :: l2) = (l1, l2) := by
  induction l1 with
  | nil => simp [splitAtDot]
  | cons c t ih =>
    have hc : c ≠ '.' := h c (by simp)
    have ht : ∀ x ∈ t, x ≠ '.' := fun x hx => h x (by simp [hx])
    simp [splitAtDot, hc, ih ht]

lemma decodeMag_body (n a : ℕ) :
    decodeMag (natChars (a / 10 ^ n) ++ '.' :: padZeros n (natChars (a % 10 ^ n))) =
      (a : ℚ) / 10 ^ n := by
  have hsplit := @splitAtDot_spec (natChars (a / 10 ^ n))
    (fun c hc => (mem_natChars hc).1) (padZeros n (natChars (a % 10 ^ n)))
  unfold decodeMag
  rw [hsplit]
  simp only
  rw [charsToNat_natChars, charsToNat_padZeros, charsToNat_natChars]
  by_cases hn : n = 0
  · subst hn
    simp [Nat.mod_one, padZeros, natChars]
  · have hfp : a % 10 ^ n < 10 ^ n := Nat.mod_lt _ (by positivity)
    have hlen : (natChars (a % 10 ^ n)).length ≤ n := natChars_length_le hfp (by omega)
    rw [padZeros_length_of_le hlen]
    have hid : ((a / 10 ^ n : ℕ) : ℚ) * (10 ^ n : ℚ) + ((a % 10 ^ n : ℕ) : ℚ) = (a : ℚ) :=
      calc ((a / 10 ^ n : ℕ) : ℚ) * (10 ^ n : ℚ) + ((a % 10 ^ n : ℕ) : ℚ)
          = ((10 ^ n * (a / 10 ^ n) + a % 10 ^ n : ℕ) : ℚ) := by push_cast; ring
        _ = (a : ℚ) := by rw [Nat.div_add_mod]
    have h10 : (10 : ℚ) ^ n ≠ 0 := by positivity
    field_simp
    linarith [hid]

lemma decodeFixed_cons_ne_dash {c : Char} (hc : c ≠ '-') (l : List Char) :
    decodeFixed (c :: l) = decodeMag (c :: l) := by
  simp [decodeFixed, hc]

lemma decode_renderFixed (n : ℕ) (q : ℚ) :
    decodeFixed (renderFixed n q) = roundTo n q := by
  unfold renderFixed roundTo
  set m : ℤ := round (q * 10 ^ n) with hm
  by_cases hneg : m < 0
  · rw [if_pos hneg]
    have hdec : decodeFixed ('-' ::
        (natChars (m.natAbs / 10 ^ n) ++ '.' :: padZeros n (natChars (m.natAbs % 10 ^ n)))) =
        -decodeMag (natChars (m.natAbs / 10 ^ n) ++ '.' ::
          padZeros n (natChars (m.natAbs % 10 ^ n))) := by
      simp [decodeFixed]
    rw [hdec, decodeMag_body]
    have habs : ((m.natAbs : ℕ) : ℚ) = -((m : ℤ) : ℚ) := by
      have h1 : ((m.natAbs : ℤ)) = -m := by omega
      calc ((m.natAbs : ℕ) : ℚ) = (((m.natAbs : ℤ)) : ℚ) := (Int.cast_natCast _).symm
        _ = ((-m : ℤ) : ℚ) := by rw [h1]
        _ = -((m : ℤ) : ℚ) := by push_cast; ring
    rw [habs]
    ring
  · rw [if_neg hneg]
    obtain ⟨c, t, hct⟩ : ∃ c t, natChars (m.natAbs / 10 ^ n) = c :: t := by
      cases h : natChars (m.natAbs / 10 ^ n) with
      | nil => exact absurd h (natChars_ne_nil _)
      | cons c t => exact ⟨c, t, rfl⟩
    have hcne : c ≠ '-' := by
      have hmem : c ∈ natChars (m.natAbs / 10 ^ n) := by
        rw [hct]
        simp
      exact (mem_natChars hmem).2
    rw [hct, List.cons_append, decodeFixed_cons_ne_dash hcne, ← List.cons_append, ← hct]
    rw [decodeMag_body]
    have habs : ((m.natAbs : ℕ) : ℚ) = ((m : ℤ) : ℚ) := by
      have h1 : ((m.natAbs : ℤ)) = m := by omega
      calc ((m.natAbs : ℕ) : ℚ) = (((m.natAbs : ℤ)) : ℚ) := (Int.cast_natCast _).symm
        _ = ((m : ℤ) : ℚ) := by rw [h1]
    rw [habs]

/-- Model of `csv_header` from `flight-unit/main.py` line 104. -/
def csv_header : String := "time,latitude,longitude,elevation,airspeed,temp,satellites\n"

/-- The startup header check of `main.py` lines 110-115: `uos.stat` raising
`OSError` (file absent) creates the file with the header row; an existing
file is left untouched. -/
def ensureHeader (fs : Option (List String)) : List String :=
  match fs with
  | none => [csv_header]
  | some lines => lines

/-- One CSV cell (`main.py` lines 159-178): a present value is rendered with
`"{:.nf}"`, an absent one as the empty string. -/
def renderCell (x : Option ℚ) (n : ℕ) : String :=
  match x with
  | none => ""
  | some q => String.mk (renderFixed n q)

lemma roundTo_roundTo (n : ℕ) (q : ℚ) : roundTo n (roundTo n q) = roundTo n q := by
  unfold roundTo
  rw [div_mul_cancel₀ _ (by positivity : (10 : ℚ) ^ n ≠ 0), round_intCast]

/-- C9: the header row is written only when the file does not exist and an
existing file is only appended to (prior content preserved); rendering a
present value at `n` decimal places (8 for latitude/longitude, 2 for the
numeric fields) and reading it back reproduces exactly the value rounded to
those `n` places — so a value already at the stated precision round-trips
identically; and an absent field renders as the empty string, which is not
the word "None" or "null". -/
theorem csv_emission_spec :
    ensureHeader none = [csv_header] ∧
    (∀ lines : List String, ensureHeader (some lines) = lines) ∧
    (∀ (file : List String) (row : String),
      persistStep file row true = file ++ [row] ∧
      (persistStep file row true).take file.length = file) ∧
    (∀ (n : ℕ) (q : ℚ), decodeFixed (renderFixed n q) = roundTo n q) ∧
    (∀ (n : ℕ) (q : ℚ), decodeFixed (renderFixed n (roundTo n q)) = roundTo n q) ∧
    (∀ n : ℕ, renderCell none n = "") ∧
    ("" : String) ≠ "None" ∧ ("" : String) ≠ "null" := by
  refine ⟨rfl, fun lines => rfl, fun file row => ⟨rfl, ?_⟩, decode_renderFixed,
    fun n q => ?_, fun n => rfl, by decide, by decide⟩
  · simp [persistStep, List.take_left]
  · rw [decode_renderFixed, roundTo_roundTo]

end AirFQ
